import Mathlib

/-!
Shallow embedding of `main.py` from the zfs-discord-alerts repository.
-/

/-- Untyped JSON-like values, mirroring the Python dicts/lists/scalars that
`main.py` manipulates (`old_data`, classifier output, web-server traversal).
Objects are insertion-ordered association lists, as Python dicts are. -/
inductive JVal where
  | jnum  : Int → JVal
  | jstr  : String → JVal
  | jbool : Bool → JVal
  | jnull : JVal
  | jarr  : List JVal → JVal
  | jobj  : List (String × JVal) → JVal
deriving Repr

mutual

/-- Structural equality on JSON-like values.  This agrees with Python `==` on
every value occurring in this program: Python's numeric cross-type equalities
(`True == 1`) would only matter if booleans appeared next to numbers, and the
snapshots built by `main.py` contain only ints, strings, lists and dicts. -/
def beqJ : JVal → JVal → Bool
  | .jnum a, .jnum b => a == b
  | .jstr a, .jstr b => a == b
  | .jbool a, .jbool b => a == b
  | .jnull, .jnull => true
  | .jarr a, .jarr b => beqListJ a b
  | .jobj a, .jobj b => beqPairsJ a b
  | _, _ => false

def beqListJ : List JVal → List JVal → Bool
  | [], [] => true
  | a :: as, b :: bs => beqJ a b && beqListJ as bs
  | _, _ => false

def beqPairsJ : List (String × JVal) → List (String × JVal) → Bool
  | [], [] => true
  | (k, v) :: as, (l, w) :: bs => k == l && beqJ v w && beqPairsJ as bs
  | _, _ => false

end

/-- Insertion sort of association-list entries by key, used to compare Python
dicts up to key order (Python `==` on dicts ignores insertion order). -/
def keyInsert (p : String × JVal) : List (String × JVal) → List (String × JVal)
  | [] => [p]
  | q :: qs => if p.1 ≤ q.1 then p :: q :: qs else q :: keyInsert p qs

def keySort : List (String × JVal) → List (String × JVal)
  | [] => []
  | p :: ps => keyInsert p (keySort ps)

mutual

/-- Normalise a value by recursively sorting object keys; two duplicate-free
Python dicts are `==` in Python iff their normalisations are equal. -/
def normJ : JVal → JVal
  | .jnum n => .jnum n
  | .jstr s => .jstr s
  | .jbool b => .jbool b
  | .jnull => .jnull
  | .jarr l => .jarr (normList l)
  | .jobj l => .jobj (keySort (normPairs l))

def normList : List JVal → List JVal
  | [] => []
  | x :: xs => normJ x :: normList xs

def normPairs : List (String × JVal) → List (String × JVal)
  | [] => []
  | (k, v) :: xs => (k, normJ v) :: normPairs xs

end

/-- Python `==` on JSON-like values (dict comparison is key-order insensitive,
so compare after recursively sorting object keys; all dicts in this program are
duplicate-free, for which this coincides with Python's dict equality). -/
def pyEqJ (a b : JVal) : Bool := beqJ (normJ a) (normJ b)

/-- The health counter triple that `create_count` installs on every node
(`total`, `online`, `degraded`); fields are Python ints. -/
structure Counter where
  total : Int
  online : Int
  degraded : Int
deriving DecidableEq, Repr

/-- `create_count` (main.py lines 211-214). -/
def createCount : Counter := { total := 0, online := 0, degraded := 0 }

/-- `count_by_state` (main.py lines 216-221): `total` always increments; the
`if`/`elif` increments `online` for ONLINE/AVAIL, else `degraded` for
DEGRADED/INUSE. -/
def countByState (c : Counter) (state : String) : Counter :=
  { total := c.total + 1
    online := if state = "ONLINE" ∨ state = "AVAIL" then c.online + 1 else c.online
    degraded :=
      if ¬(state = "ONLINE" ∨ state = "AVAIL") ∧ (state = "DEGRADED" ∨ state = "INUSE") then
        c.degraded + 1
      else c.degraded }

/-- A node of the `zpool status -j` device tree, carrying exactly the fields
`main.py` reads from it: `state`, `vdev_type`, `class` and the child map
`vdevs` (insertion-ordered, as a Python dict). -/
inductive Dev where
  | mk (state vtype cls : String) (children : List (String × Dev))

def Dev.state : Dev → String
  | .mk s _ _ _ => s

def Dev.vtype : Dev → String
  | .mk _ t _ _ => t

def Dev.cls : Dev → String
  | .mk _ _ c _ => c

def Dev.children : Dev → List (String × Dev)
  | .mk _ _ _ ch => ch

/-- One pool entry of the decoded status JSON, with the parts `check` reads:
`pool['state']`, the optional `alloc_space`/`total_space` pair found on
`pool['vdevs'][pool_name]`, the redundancy groups
`pool['vdevs'][pool_name]['vdevs']`, and the optional `logs`/`l2cache`/`spares`
maps. -/
structure PoolIn where
  state : String
  space : Option (String × String)
  groups : List (String × Dev)
  logs : Option (List (String × Dev))
  l2cache : Option (List (String × Dev))
  spares : Option (List (String × Dev))

/-- The decoded output of `zpool status -j`: the `pools` map. -/
structure StatusIn where
  pools : List (String × PoolIn)

/-- The replacing-wrapper branch (main.py lines 260-264): contributions of a
`replacing` child's devices to the pool's degraded/offline drive lists, the
identifier suffixed with " (replacing)". -/
def replacingLists : List (String × Dev) → List String × List String
  | [] => ([], [])
  | (rplName, rpl) :: rest =>
      let here : List String × List String :=
        if rpl.state = "DEGRADED" then ([rplName ++ " (replacing)"], [])
        else if rpl.state ≠ "ONLINE" then ([], [rplName ++ " (replacing)"])
        else ([], [])
      let tail := replacingLists rest
      (here.1 ++ tail.1, here.2 ++ tail.2)

/-- The spare-wrapper branch (main.py lines 257-269): contributions of the
children of a non-online `spare` vdev to the drive lists.  A `replacing` child
is descended into; a child whose `class` is not "spare" is listed under its own
name. -/
def spareLists : List (String × Dev) → List String × List String
  | [] => ([], [])
  | (subName, sub) :: rest =>
      let here : List String × List String :=
        if sub.vtype = "replacing" then replacingLists sub.children
        else if sub.cls ≠ "spare" then
          if sub.state = "DEGRADED" then ([subName], [])
          else if sub.state ≠ "ONLINE" then ([], [subName])
          else ([], [])
        else ([], [])
      let tail := spareLists rest
      (here.1 ++ tail.1, here.2 ++ tail.2)

/-- Drive-list contributions of a single group member (main.py lines 255-273):
ONLINE drives contribute nothing, a `spare` wrapper is descended into, a
DEGRADED drive goes to `degraded_drives`, any other non-online drive to
`offline_drives`. -/
def driveLists (driveName : String) (d : Dev) : List String × List String :=
  if d.state = "ONLINE" then ([], [])
  else if d.vtype = "spare" then spareLists d.children
  else if d.state = "DEGRADED" then ([driveName], [])
  else if d.state ≠ "ONLINE" then ([], [driveName])
  else ([], [])

/-- The inner drive loop of one group (main.py lines 251-273): every direct
member is tallied into both the pool counter and the group counter, and the
drive lists grow by `driveLists`. -/
def processDrives (pc gc : Counter) (dd od : List String) :
    List (String × Dev) → Counter × Counter × List String × List String
  | [] => (pc, gc, dd, od)
  | (name, d) :: rest =>
      let pc' := countByState pc d.state
      let gc' := countByState gc d.state
      let l := driveLists name d
      processDrives pc' gc' (dd ++ l.1) (od ++ l.2) rest

/-- The group loop (main.py lines 247-273): each group gets a fresh counter and
contributes a `(name, counter)` child entry in iteration order. -/
def processGroups (pc : Counter) (dd od : List String) (acc : List (String × Counter)) :
    List (String × Dev) → Counter × List String × List String × List (String × Counter)
  | [] => (pc, dd, od, acc)
  | (gname, g) :: rest =>
      let r := processDrives pc createCount dd od g.children
      processGroups r.1 r.2.2.1 r.2.2.2 (acc ++ [(gname, r.2.1)]) rest

/-- Inner tally of a list of devices by their `state` (main.py lines 280-281,
288-289, 294-295). -/
def countListStates (c : Counter) : List (String × Dev) → Counter
  | [] => c
  | (_, sub) :: rest => countListStates (countByState c sub.state) rest

/-- The `logs` tally (main.py lines 278-283): a non-`disk` wrapper (such as a
mirrored log) has each of its children tallied; a plain disk is tallied
itself. -/
def countLogs (c : Counter) : List (String × Dev) → Counter
  | [] => c
  | (_, d) :: rest =>
      let c' := if d.vtype ≠ "disk" then countListStates c d.children else countByState c d.state
      countLogs c' rest

/-- The per-pool summary dict built by `check` (main.py lines 235-295): the
drive lists, child counters under `vdevs` (groups, then the optional
`logs`/`cache`/`spares` entries), the optional space pair, and the pool
counter. -/
structure PoolNode where
  degraded_drives : List String
  offline_drives : List String
  vdevs : List (String × Counter)
  space : Option (String × String)
  counter : Counter
deriving DecidableEq, Repr

/-- The top-level dict `check` hands to `check_status` (main.py lines 225-297):
root counter plus the `vdevs` map of pool summaries. -/
structure RootSnapshot where
  counter : Counter
  vdevs : List (String × PoolNode)
deriving DecidableEq, Repr

/-- The `if 'logs' in pool:` pattern of main.py lines 275-295: when the
auxiliary class is present, its counter is appended under the given name. -/
def optChild (name : String) (gs : List (String × Counter)) :
    Option Counter → List (String × Counter)
  | some c => gs ++ [(name, c)]
  | none => gs

/-- The body of the pool loop for one pool (main.py lines 235-295): fresh
lists and counter, optional space copy (guarded by `SHOW_SPACE` and presence of
`alloc_space`), the group loop, and the optional `logs`/`cache`/`spares`
children. -/
def processPool (showSpace : Bool) (p : PoolIn) : PoolNode :=
  let space := if showSpace then p.space else none
  let r := processGroups createCount [] [] [] p.groups
  let gs := optChild "logs" r.2.2.2 (p.logs.map (countLogs createCount))
  let gs := optChild "cache" gs (p.l2cache.map (countListStates createCount))
  let gs := optChild "spares" gs (p.spares.map (countListStates createCount))
  { degraded_drives := r.2.1, offline_drives := r.2.2.1, vdevs := gs, space := space,
    counter := r.1 }

/-- The pool loop (main.py lines 232-295): each pool's own `state` is tallied
into the root counter and its summary appended under its name. -/
def classifyPools (showSpace : Bool) (rc : Counter) (acc : List (String × PoolNode)) :
    List (String × PoolIn) → Counter × List (String × PoolNode)
  | [] => (rc, acc)
  | (pname, p) :: rest =>
      classifyPools showSpace (countByState rc p.state) (acc ++ [(pname, processPool showSpace p)])
        rest

/-- The topology classifier: the pure part of `check` (main.py lines 225-297)
from decoded status JSON to the summary snapshot handed to `check_status`. -/
def classify (showSpace : Bool) (st : StatusIn) : RootSnapshot :=
  let r := classifyPools showSpace createCount [] st.pools
  { counter := r.1, vdevs := r.2 }

/-- The three counter keys in the insertion order `create_count` gives them. -/
def counterPairs (c : Counter) : List (String × JVal) :=
  [("total", .jnum c.total), ("online", .jnum c.online), ("degraded", .jnum c.degraded)]

/-- The Python dict a `PoolNode` stands for, with the exact key insertion order
of main.py lines 235-245 (`degraded_drives`, `offline_drives`, `vdevs`, then
the optional space keys, then `create_count`'s three keys). -/
def poolNodeToJ (p : PoolNode) : JVal :=
  .jobj ([("degraded_drives", .jarr (p.degraded_drives.map .jstr)),
          ("offline_drives", .jarr (p.offline_drives.map .jstr)),
          ("vdevs", .jobj (p.vdevs.map (fun q => (q.1, .jobj (counterPairs q.2)))))]
    ++ (match p.space with
        | some s => [("alloc_space", .jstr s.1), ("total_space", .jstr s.2)]
        | none => [])
    ++ counterPairs p.counter)

/-- The Python dict a `RootSnapshot` stands for (main.py lines 225-231:
`create_count(data)` first, then `data['vdevs']`). -/
def toJVal (r : RootSnapshot) : JVal :=
  .jobj (counterPairs r.counter
    ++ [("vdevs", .jobj (r.vdevs.map (fun q => (q.1, poolNodeToJ q.2))))])

/-- The initial `old_data = {"vdevs": {}}` (main.py line 152). -/
def initialOldData : JVal := .jobj [("vdevs", .jobj [])]

/-- What `get_embed` reads from one entry of `data['vdevs']`: the counter keys
and the optional space pair (main.py lines 114-122). -/
structure ChildView where
  counter : Counter
  space : Option (String × String)
deriving DecidableEq, Repr

/-- What `get_embed` reads from its `data` argument (main.py lines 106-136).
An absent `degraded_drives`/`offline_drives` key and an empty list behave
identically there (`'k' in data and data['k']`), so both are modelled as `[]`;
`space` is `none` when the two space keys are absent. -/
structure EmbedData where
  counter : Counter
  space : Option (String × String)
  vdevs : List (String × ChildView)
  degraded_drives : List String
  offline_drives : List String
deriving DecidableEq, Repr

/-- One Discord embed field (main.py lines 116-142). -/
structure EmbedField where
  name : String
  value : String
  inlined : Bool
deriving DecidableEq, Repr

/-- A rendered Discord embed (main.py lines 144-149). -/
structure Embed where
  title : String
  description : String
  color : Int
  fields : List EmbedField
deriving DecidableEq, Repr

/-- The title conditional of `get_embed` (main.py line 106).  Python's
`data['total'] and ...` is truthiness of the int, i.e. `total ≠ 0`. -/
def codeTitle (c : Counter) : String :=
  if c.total ≠ 0 ∧ c.online + c.degraded = 0 then "\\🛑 OFFLINE"
  else if c.online = c.total then "\\✅ ONLINE"
  else "\\⚠️ DEGRADED"

/-- The colour conditional of `get_embed` (main.py line 107). -/
def codeColor (c : Counter) : Int :=
  if c.total ≠ 0 ∧ c.online + c.degraded = 0 then 0xFF0000
  else if c.online = c.total then 0x00FF00
  else 0xFFA500

/-- The per-child icon conditional of `get_embed` (main.py line 115). -/
def codeIcon (c : Counter) : String :=
  if c.total ≠ 0 ∧ c.online + c.degraded = 0 then "\\🛑"
  else if c.online = c.total then "\\✅"
  else "\\⚠️"

/-- The status word logged by `check_status` (main.py line 160). -/
def codeStatusWord (c : Counter) : String :=
  if c.total ≠ 0 ∧ c.online + c.degraded = 0 then "OFFLINE"
  else if c.online = c.total then "ONLINE"
  else "DEGRADED"

/-- The online/total summary text shared by the description (main.py line 108)
and each child field value (line 118): the parenthesised clause appears when
`online + degraded != total` and shows `online - degraded`. -/
def descBase (c : Counter) : String :=
  toString c.online ++ " / " ++ toString c.total ++ " online" ++
    (if c.online + c.degraded = c.total then ""
     else " (" ++ toString (c.online - c.degraded) ++ " unavailable)")

/-- The `", {alloc} / {total} used"` suffix (main.py lines 112 and 122). -/
def spaceSuffix : Option (String × String) → String
  | some s => ", " ++ s.1 ++ " / " ++ s.2 ++ " used"
  | none => ""

/-- One child field of the embed (main.py lines 116-122). -/
def childField (name : String) (cv : ChildView) : EmbedField :=
  { name := codeIcon cv.counter ++ " " ++ name
    value := descBase cv.counter ++ spaceSuffix cv.space
    inlined := true }

/-- `get_embed` (main.py lines 80-149).  `extra` is the EXTRA configuration
string, `now` the value of `int(time.time())`, `pfx` the title prefix. -/
def getEmbed (extra : String) (now : Int) (pfx : String) (d : EmbedData) : Embed :=
  let description := descBase d.counter ++ spaceSuffix d.space
  let fields := d.vdevs.map (fun q => childField q.1 q.2)
  let fields := if d.degraded_drives ≠ [] then
      fields ++ [{ name := "\\⚠️ Degraded"
                   value := "```" ++ String.intercalate "\n" d.degraded_drives ++ "```"
                   inlined := false }]
    else fields
  let fields := if d.offline_drives ≠ [] then
      fields ++ [{ name := "\\🛑 Offline"
                   value := "```" ++ String.intercalate "\n" d.offline_drives ++ "```"
                   inlined := false }]
    else fields
  let fields := fields ++ [{ name := "Timestamp"
                             value := "<t:" ++ toString now ++ ":F>"
                             inlined := false }]
  { title := (if pfx ≠ "" then pfx ++ ": " else "") ++ codeTitle d.counter
    description := description ++ (if extra ≠ "" then "\n" ++ extra else "")
    color := codeColor d.counter
    fields := fields }

/-- What `get_embed('', data)` reads from a root snapshot (non-verbose call,
main.py line 163): the top-level dict has no space keys and no drive lists;
its children are the pool dicts, which may carry space keys. -/
def rootView (r : RootSnapshot) : EmbedData :=
  { counter := r.counter
    space := none
    vdevs := r.vdevs.map (fun q => (q.1, { counter := q.2.counter, space := q.2.space }))
    degraded_drives := []
    offline_drives := [] }

/-- What `get_embed(vdev_name, vdev)` reads from a pool dict (verbose call,
main.py line 167): its children are the group/auxiliary counters, which never
carry space keys. -/
def poolView (p : PoolNode) : EmbedData :=
  { counter := p.counter
    space := p.space
    vdevs := p.vdevs.map (fun q => (q.1, { counter := q.2, space := none }))
    degraded_drives := p.degraded_drives
    offline_drives := p.offline_drives }

/-- First-match association-list lookup, i.e. Python dict indexing (dict keys
are unique). -/
def lookupA {α : Type} : List (String × α) → String → Option α
  | [], _ => none
  | (k, v) :: rest, key => if k = key then some v else lookupA rest key

/-- The stored `old_data` is either the initial `{"vdevs": {}}` (modelled as
`none`) or the last snapshot that replaced it. -/
def snapEqStore (old : Option RootSnapshot) (d : RootSnapshot) : Bool :=
  match old with
  | none => false
  | some s => decide (s = d)

/-- `old_data['vdevs']` for either form of the store (the initial sentinel has
an empty `vdevs` dict). -/
def storeVdevs : Option RootSnapshot → List (String × PoolNode)
  | none => []
  | some s => s.vdevs

/-- The verbose branch of `check_status` (main.py lines 165-167): one
`get_embed(vdev_name, vdev)` call per pool absent from the old snapshot's
`vdevs` or present with an unequal value, in iteration order. -/
def verboseEmits (old : Option RootSnapshot) (d : RootSnapshot) : List (String × EmbedData) :=
  d.vdevs.filterMap (fun q =>
    match lookupA (storeVdevs old) q.1 with
    | none => some (q.1, poolView q.2)
    | some p => if p ≠ q.2 then some (q.1, poolView q.2) else none)

/-- The `(prefix, data)` arguments of the `get_embed` calls `check_status`
makes (main.py lines 157-167): none when the snapshots compare equal. -/
def checkStatusEmits (verbose : Bool) (old : Option RootSnapshot) (d : RootSnapshot) :
    List (String × EmbedData) :=
  if snapEqStore old d then []
  else if verbose then verboseEmits old d
  else [("", rootView d)]

/-- The store update of `check_status` (main.py line 169): replaced by the new
snapshot only inside the changed branch. -/
def checkStatusStore (old : Option RootSnapshot) (d : RootSnapshot) : Option RootSnapshot :=
  if snapEqStore old d then old else some d

/-- Whether `check_status` reaches the webhook delivery loop at all (main.py
lines 157 and 179): only when the snapshots compare unequal. -/
def checkStatusPosts (old : Option RootSnapshot) (d : RootSnapshot) : Bool :=
  !(snapEqStore old d)

/-- Outcome of one `requests.post` attempt in the delivery loop (main.py
lines 181-190): the accepted 204 status, any other status code, or a raised
`requests.exceptions.RequestException`. -/
inductive AttemptOutcome where
  | accepted
  | badStatus
  | transportError
deriving DecidableEq, Repr

/-- The webhook retry loop of `check_status` (main.py lines 179-194) with
`remaining` iterations of `for attempt in range(DISCORD_MAX_RETRIES)` left and
`i` the current attempt index, where `f i` is the outcome of attempt `i`.
Returns (number of post attempts, number of `time.sleep` calls): a 204 breaks
out of the loop, any other status code logs a warning and goes straight to the
next attempt, and a transport exception sleeps first exactly when
`attempt < DISCORD_MAX_RETRIES - 1`. -/
def deliveryGo (f : Nat → AttemptOutcome) (maxRetries : Nat) : Nat → Nat → Nat × Nat
  | 0, _ => (0, 0)
  | remaining + 1, i =>
      match f i with
      | .accepted => (1, 0)
      | .badStatus =>
          let r := deliveryGo f maxRetries remaining (i + 1)
          (r.1 + 1, r.2)
      | .transportError =>
          let r := deliveryGo f maxRetries remaining (i + 1)
          (r.1 + 1, r.2 + (if i < maxRetries - 1 then 1 else 0))

/-- The whole delivery loop, `for attempt in range(DISCORD_MAX_RETRIES)`:
`maxRetries` iterations starting at attempt index 0. -/
def deliveryRun (f : Nat → AttemptOutcome) (maxRetries : Nat) : Nat × Nat :=
  deliveryGo f maxRetries maxRetries 0

/-- Whether `hay` starts with `needle`. -/
def charsStart : List Char → List Char → Bool
  | _, [] => true
  | [], _ :: _ => false
  | c :: cs, d :: ds => c == d && charsStart cs ds

/-- Substring test on character lists. -/
def charsHas : List Char → List Char → Bool
  | [], needle => needle.isEmpty
  | c :: cs, needle => charsStart (c :: cs) needle || charsHas cs needle

/-- Python `needle in hay` on strings: the substring test (the empty needle is
in every string). -/
def strHas (hay needle : String) : Bool := charsHas hay.toList needle.toList

def jobjHasKey : List (String × JVal) → String → Bool
  | [], _ => false
  | (k, _) :: rest, key => k == key || jobjHasKey rest key

def jobjGet : List (String × JVal) → String → Option JVal
  | [], _ => none
  | (k, v) :: rest, key => if k = key then some v else jobjGet rest key

/-- Python `key not in data` negated (main.py line 327), as `key in data`:
for a dict, key membership; for a string, the substring test; for a list,
`==`-membership of the key among the elements (a string key only ever equals a
string element); for an int/bool/None, `in` raises TypeError, modelled as
`none`. -/
def pyIn (key : String) : JVal → Option Bool
  | .jobj l => some (jobjHasKey l key)
  | .jstr s => some (strHas s key)
  | .jarr l => some (l.any (fun v => match v with | .jstr s => s == key | _ => false))
  | _ => none

/-- Python `data[key]` for a string key (main.py line 331): dict indexing; on
any non-dict (string, list, int, bool, None) a string index raises TypeError,
modelled as `none`. -/
def pyGetKey (key : String) : JVal → Option JVal
  | .jobj l => jobjGet l key
  | _ => none

/-- HTTP responses `Handler.do_GET` can produce. -/
inductive HttpRes where
  | r204
  | r404
  | r500
  | r200 (v : JVal)
deriving Repr

/-- The traversal loop of `Handler.do_GET` (main.py lines 323-336): empty
segments are skipped; a failing membership test answers 404; a membership test
or indexing that raises is caught by the surrounding handler (lines 338-344),
which answers 500; an exhausted path answers 200 with the current value. -/
def doGetWalk : JVal → List String → HttpRes
  | data, [] => .r200 data
  | data, key :: rest =>
      if key = "" then doGetWalk data rest
      else
        match pyIn key data with
        | none => .r500
        | some false => .r404
        | some true =>
            match pyGetKey key data with
            | none => .r500
            | some v => doGetWalk v rest

/-- Python's `str.split` with a one-character separator: `''` splits to
`['']`, and adjacent separators give empty segments. -/
def splitChars (sep : Char) : List Char → List (List Char)
  | [] => [[]]
  | c :: cs =>
      let r := splitChars sep cs
      if c = sep then [] :: r
      else match r with
        | h :: t => (c :: h) :: t
        | [] => [[c]]

/-- Python's `s.split(sep, 1)[0]`: everything before the first occurrence of
the separator (the whole string when absent). -/
def beforeChar (sep : Char) : List Char → List Char
  | [] => []
  | c :: cs => if c = sep then [] else c :: beforeChar sep cs

/-- `Handler.do_GET` (main.py lines 303-344) against the stored snapshot:
`str(self.path)[1:].split('?', 1)[0]` strips the leading character and any
query string; `_ping` answers 204; otherwise the slash-split segments are
walked. -/
def doGet (snapshot : JVal) (rawPath : String) : HttpRes :=
  let cs := beforeChar '?' (rawPath.toList.drop 1)
  if cs.asString = "_ping" then .r204
  else doGetWalk snapshot ((splitChars '/' cs).map List.asString)

/-- Exceptions that the body of `check`'s `try` block (main.py lines 223-297)
can raise: a failing `subprocess.check_output`, a `json.loads` on malformed
output, or a missing expected key during classification. -/
inductive PyErr where
  | calledProcessError
  | jsonDecodeError
  | keyError
deriving DecidableEq, Repr

/-- One poll of the external command: either an exception or a decoded
status. -/
inductive PollResult where
  | err (e : PyErr)
  | ok (st : StatusIn)

/-- Which exceptions the `except subprocess.CalledProcessError` clause of
`check` catches (main.py line 299): only that one; `json.JSONDecodeError` is a
`ValueError` and `KeyError` is unrelated, so neither is caught. -/
def checkCatches : PyErr → Bool
  | .calledProcessError => true
  | .jsonDecodeError => false
  | .keyError => false

/-- Fate of one iteration of `main`'s loop (main.py lines 381-387). -/
inductive CycleOutcome where
  | continued (store : Option RootSnapshot)
  | fatalExit (code : Int) (store : Option RootSnapshot)

/-- One iteration of `main`'s poll loop around `check`: an error caught inside
`check` is logged and the cycle ends with the store untouched; an uncaught
error escapes into `main`'s `except Exception`, which logs and calls
`sys.exit(1)`; a successful poll classifies and runs the notifier. -/
def pollCycle (showSpace : Bool) (store : Option RootSnapshot) :
    PollResult → CycleOutcome
  | .err e => if checkCatches e then .continued store else .fatalExit 1 store
  | .ok st => .continued (checkStatusStore store (classify showSpace st))

/-- The severity ranking, word for word from the specification's three-way
rule: OFFLINE iff `total > 0` and `online + degraded == 0`; otherwise DEGRADED
iff `online != total`; otherwise ONLINE. -/
inductive Severity where
  | offline
  | degraded
  | online
deriving DecidableEq, Repr

def ruleSeverity (c : Counter) : Severity :=
  if 0 < c.total ∧ c.online + c.degraded = 0 then .offline
  else if c.online ≠ c.total then .degraded
  else .online

def sevLabel : Severity → String
  | .offline => "\\🛑 OFFLINE"
  | .degraded => "\\⚠️ DEGRADED"
  | .online => "\\✅ ONLINE"

def sevColor : Severity → Int
  | .offline => 0xFF0000
  | .degraded => 0xFFA500
  | .online => 0x00FF00

def sevIcon : Severity → String
  | .offline => "\\🛑"
  | .degraded => "\\⚠️"
  | .online => "\\✅"

/-- The specification's §8 fixture tree: a raidz group holding one healthy
device, one DEGRADED device, one OFFLINE-equivalent (UNAVAIL) device and a
spare wrapper around a replacing pair (one degraded, one online sub-device)
plus the in-use spare disk; a mirrored log pair; one cache device; one
spare-pool device. -/
def fixtureSpare : Dev :=
  .mk "DEGRADED" "spare" "vdev"
    [("replacing-0", .mk "DEGRADED" "replacing" "vdev"
        [("sdd1", .mk "DEGRADED" "disk" "vdev" []),
         ("sde1", .mk "ONLINE" "disk" "vdev" [])]),
     ("sdf1", .mk "INUSE" "disk" "spare" [])]

def fixturePool : PoolIn :=
  { state := "DEGRADED"
    space := none
    groups :=
      [("raidz1-0", .mk "DEGRADED" "raidz1" "vdev"
          [("sda1", .mk "ONLINE" "disk" "vdev" []),
           ("sdb1", .mk "DEGRADED" "disk" "vdev" []),
           ("sdc1", .mk "UNAVAIL" "disk" "vdev" []),
           ("spare-0", fixtureSpare)])]
    logs := some
      [("mirror-1", .mk "ONLINE" "mirror" "vdev"
          [("sdg1", .mk "ONLINE" "disk" "log" []),
           ("sdh1", .mk "ONLINE" "disk" "log" [])])]
    l2cache := some [("sdi1", .mk "ONLINE" "disk" "cache" [])]
    spares := some [("sdj1", .mk "AVAIL" "disk" "spare" [])] }

def fixtureStatus : StatusIn := { pools := [("tank", fixturePool)] }

/-- The HealthCounter invariant stated by the specification: all three fields
non-negative and `online + degraded ≤ total`. -/
def CounterInv (c : Counter) : Prop :=
  0 ≤ c.total ∧ 0 ≤ c.online ∧ 0 ≤ c.degraded ∧ c.online + c.degraded ≤ c.total

/-- The condition under which the verbose branch of `check_status` renders a
message for a pool entry (main.py line 166): absent from the old snapshot's
`vdevs`, or present with an unequal value. -/
def poolChanged (old : Option RootSnapshot) (q : String × PoolNode) : Bool :=
  match lookupA (storeVdevs old) q.1 with
  | none => true
  | some p => decide (p ≠ q.2)

/-- A node with 2 devices of which 1 online and 1 degraded: here
`online != total` yet `online + degraded == total`. -/
def partDegradedData : EmbedData :=
  { counter := { total := 2, online := 1, degraded := 1 }
    space := none
    vdevs := []
    degraded_drives := []
    offline_drives := [] }

/-- A healthy one-pool snapshot used as counterexample material. -/
def poolNodeA : PoolNode :=
  { degraded_drives := []
    offline_drives := []
    vdevs := [("raidz1-0", { total := 2, online := 2, degraded := 0 })]
    space := none
    counter := { total := 2, online := 2, degraded := 0 } }

/-- A second healthy pool. -/
def poolNodeB : PoolNode :=
  { degraded_drives := []
    offline_drives := []
    vdevs := [("mirror-0", { total := 2, online := 2, degraded := 0 })]
    space := none
    counter := { total := 2, online := 2, degraded := 0 } }

/-- Stored snapshot with pools "a" and "b". -/
def twoPoolSnap : RootSnapshot :=
  { counter := { total := 2, online := 2, degraded := 0 }
    vdevs := [("a", poolNodeA), ("b", poolNodeB)] }

/-- New snapshot in which pool "b" has disappeared and pool "a" is unchanged:
it differs from `twoPoolSnap` (root counters and the `vdevs` key set differ)
yet no pool of the new snapshot changed. -/
def onePoolSnap : RootSnapshot :=
  { counter := { total := 1, online := 1, degraded := 0 }
    vdevs := [("a", poolNodeA)] }

/-- A concrete stored `old_data` value for the projection server: the dict for
an all-online snapshot whose `total` key holds the int 6. -/
def servedSnapshot : JVal :=
  .jobj [("total", .jnum 6), ("online", .jnum 6), ("degraded", .jnum 0),
         ("vdevs", .jobj [])]

lemma ifSev {α : Type} (c : Counter) (h : 0 ≤ c.total) (off onl deg : α) :
    (if c.total ≠ 0 ∧ c.online + c.degraded = 0 then off
     else if c.online = c.total then onl else deg)
    = (match ruleSeverity c with
       | .offline => off
       | .degraded => deg
       | .online => onl) := by
  unfold ruleSeverity
  by_cases h1 : 0 < c.total ∧ c.online + c.degraded = 0
  · have h2 : c.total ≠ 0 ∧ c.online + c.degraded = 0 := ⟨by omega, h1.2⟩
    simp [h1, h2]
  · have h2 : ¬(c.total ≠ 0 ∧ c.online + c.degraded = 0) := by
      intro hx
      exact h1 ⟨by omega, hx.2⟩
    by_cases h3 : c.online = c.total
    · rw [if_neg h2, if_pos h3, if_neg h1, if_neg (show ¬c.online ≠ c.total by simp [h3])]
    · rw [if_neg h2, if_neg h3, if_neg h1, if_pos h3]

lemma codeTitle_eq (c : Counter) (h : 0 ≤ c.total) :
    codeTitle c = sevLabel (ruleSeverity c) := by
  unfold codeTitle
  rw [ifSev c h]
  cases ruleSeverity c <;> rfl

lemma codeColor_eq (c : Counter) (h : 0 ≤ c.total) :
    codeColor c = sevColor (ruleSeverity c) := by
  unfold codeColor
  rw [ifSev c h]
  cases ruleSeverity c <;> rfl

lemma codeIcon_eq (c : Counter) (h : 0 ≤ c.total) :
    codeIcon c = sevIcon (ruleSeverity c) := by
  unfold codeIcon
  rw [ifSev c h]
  cases ruleSeverity c <;> rfl

/-- C7: severity of any HealthCounter (fields non-negative, here `0 ≤ total`
suffices) is decided by the spec's three-way rule — OFFLINE iff `total > 0`
and `online + degraded = 0`, else DEGRADED iff `online ≠ total`, else ONLINE —
and that one rule selects the embed title, the colour, and every child field's
icon, for whichever node (root or pool) `get_embed` is called on. -/
theorem severity_rule_governs_rendering (extra : String) (now : Int) (pfx : String)
    (d : EmbedData) (hroot : 0 ≤ d.counter.total)
    (hkids : ∀ q ∈ d.vdevs, 0 ≤ q.2.counter.total) :
    (getEmbed extra now pfx d).title
      = (if pfx ≠ "" then pfx ++ ": " else "") ++ sevLabel (ruleSeverity d.counter)
    ∧ (getEmbed extra now pfx d).color = sevColor (ruleSeverity d.counter)
    ∧ ∀ q ∈ d.vdevs,
        (childField q.1 q.2).name = sevIcon (ruleSeverity q.2.counter) ++ " " ++ q.1 := by
  refine ⟨?_, ?_, ?_⟩
  · show (if pfx ≠ "" then pfx ++ ": " else "") ++ codeTitle d.counter = _
    rw [codeTitle_eq d.counter hroot]
  · show codeColor d.counter = _
    rw [codeColor_eq d.counter hroot]
  · intro q hq
    show codeIcon q.2.counter ++ " " ++ q.1 = _
    rw [codeIcon_eq q.2.counter (hkids q hq)]

/-- Witness for C7 at a concrete degraded node. -/
theorem severity_rule_governs_rendering_witness :
    (getEmbed "" 0 "" partDegradedData).color
      = sevColor (ruleSeverity partDegradedData.counter) :=
  (severity_rule_governs_rendering "" 0 "" partDegradedData (by decide)
    (by intro q hq; simp [partDegradedData] at hq)).2.1

/-- C2 counterexample: with `total = 2`, `online = 1`, `degraded = 1` not all
devices are online (`online ≠ total`), so the claim demands the description to
contain "(1 unavailable)" (with `unavailable = total - online = 1`); the code's
description is exactly "1 / 2 online", because the clause is gated on
`online + degraded != total`, which is false here. -/
theorem unavailable_clause_cex :
    (getEmbed "" 0 "" partDegradedData).description = "1 / 2 online"
    ∧ strHas (getEmbed "" 0 "" partDegradedData).description "(1 unavailable)" = false
    ∧ partDegradedData.counter.online ≠ partDegradedData.counter.total := by
  refine ⟨rfl, by decide, by decide⟩

lemma mem_ite_append {α : Type} {a : α} {l m : List α} (P : Prop) [Decidable P]
    (h : a ∈ l) : a ∈ (if P then l ++ m else l) := by
  split
  · exact List.mem_append_left m h
  · exact h

/-- C2 amended: the rendered description is
`"{online} / {total} online"`, then `" ({online - degraded} unavailable)"`
exactly when `online + degraded ≠ total`, then the space suffix and the EXTRA
suffix; every child field carries the same text for its own counter and space
pair. -/
theorem embed_description_text (extra : String) (now : Int) (pfx : String)
    (d : EmbedData) :
    (getEmbed extra now pfx d).description
      = (toString d.counter.online ++ " / " ++ toString d.counter.total ++ " online"
          ++ (if d.counter.online + d.counter.degraded = d.counter.total then ""
              else " (" ++ toString (d.counter.online - d.counter.degraded) ++ " unavailable)"))
        ++ spaceSuffix d.space ++ (if extra ≠ "" then "\n" ++ extra else "")
    ∧ ∀ q ∈ d.vdevs,
        childField q.1 q.2 ∈ (getEmbed extra now pfx d).fields
        ∧ (childField q.1 q.2).value
            = (toString q.2.counter.online ++ " / " ++ toString q.2.counter.total ++ " online"
                ++ (if q.2.counter.online + q.2.counter.degraded = q.2.counter.total then ""
                    else " (" ++ toString (q.2.counter.online - q.2.counter.degraded)
                          ++ " unavailable)"))
              ++ spaceSuffix q.2.space := by
  refine ⟨rfl, ?_⟩
  intro q hq
  refine ⟨?_, rfl⟩
  show childField q.1 q.2 ∈
    ((if d.degraded_drives ≠ [] then _ else _ : List EmbedField) |> fun fs =>
      (if d.offline_drives ≠ [] then fs ++ _ else fs) ++ _)
  exact List.mem_append_left _ (mem_ite_append _ (mem_ite_append _
    (List.mem_map_of_mem _ hq)))

/-- Witness for C2's amended statement: the child field for pool "a" appears
among the rendered fields of the two-pool snapshot. -/
theorem embed_description_text_witness :
    childField "a" { counter := { total := 2, online := 2, degraded := 0 }, space := none }
      ∈ (getEmbed "" 0 "" (rootView twoPoolSnap)).fields :=
  ((embed_description_text "" 0 "" (rootView twoPoolSnap)).2
    ("a", { counter := { total := 2, online := 2, degraded := 0 }, space := none })
    (by decide)).1

/-- C9: after `check_status` has processed a snapshot, feeding it the very
same snapshot again produces no `get_embed` call (zero messages) and never
reaches the webhook delivery loop, whatever the mode and previous store. -/
theorem same_snapshot_twice_no_messages (verbose : Bool) (old : Option RootSnapshot)
    (d : RootSnapshot) :
    checkStatusEmits verbose (checkStatusStore old d) d = []
    ∧ checkStatusPosts (checkStatusStore old d) d = false := by
  unfold checkStatusStore
  cases hEq : snapEqStore old d with
  | true => simp [checkStatusEmits, checkStatusPosts, hEq]
  | false => simp [checkStatusEmits, checkStatusPosts, snapEqStore]

/-- C1 counterexample: malformed command output (here a `json.loads` failure)
is not caught by `check`'s `except subprocess.CalledProcessError` clause, so
the cycle ends in `main`'s generic handler with `sys.exit(1)` — fatal, against
the claim that such faults never are. -/
theorem malformed_output_is_fatal_cex :
    pollCycle false none (.err .jsonDecodeError) = .fatalExit 1 none := rfl

/-- C1 amended: a failing external command (`CalledProcessError`) is logged,
the cycle is skipped with the stored snapshot retained, and the loop
continues; but malformed output — invalid JSON or a missing expected key —
propagates out of `check` and terminates the process with exit status 1 (the
store it dies with is whatever was last stored).  A successful poll continues
with the snapshot the notifier stores. -/
theorem poll_cycle_error_handling (showSpace : Bool) (store : Option RootSnapshot) :
    pollCycle showSpace store (.err .calledProcessError) = .continued store
    ∧ pollCycle showSpace store (.err .jsonDecodeError) = .fatalExit 1 store
    ∧ pollCycle showSpace store (.err .keyError) = .fatalExit 1 store
    ∧ ∀ st : StatusIn, pollCycle showSpace store (.ok st)
        = .continued (checkStatusStore store (classify showSpace st)) :=
  ⟨rfl, rfl, rfl, fun _ => rfl⟩

lemma deliveryGo_attempts_le (f : Nat → AttemptOutcome) (m : Nat) :
    ∀ r i, (deliveryGo f m r i).1 ≤ r := by
  intro r
  induction r with
  | zero => intro i; simp [deliveryGo]
  | succ n ih =>
    intro i
    cases hf : f i with
    | accepted => simp [deliveryGo, hf]
    | badStatus => simp only [deliveryGo, hf]; have := ih (i + 1); omega
    | transportError => simp only [deliveryGo, hf]; have := ih (i + 1); omega

lemma deliveryGo_all_bad (f : Nat → AttemptOutcome) (m : Nat)
    (h : ∀ j, j < m → f j = .badStatus) :
    ∀ r i, i + r = m → deliveryGo f m r i = (r, 0) := by
  intro r
  induction r with
  | zero => intro i _; rfl
  | succ n ih =>
    intro i hi
    have hf : f i = .badStatus := h i (by omega)
    have ht := ih (i + 1) (by omega)
    simp [deliveryGo, hf, ht]

lemma deliveryGo_all_transport (f : Nat → AttemptOutcome) (m : Nat)
    (h : ∀ j, j < m → f j = .transportError) :
    ∀ r i, i + r = m → deliveryGo f m r i = (r, r - 1) := by
  intro r
  induction r with
  | zero => intro i _; rfl
  | succ n ih =>
    intro i hi
    have hf : f i = .transportError := h i (by omega)
    have ht := ih (i + 1) (by omega)
    by_cases hn : n = 0
    · subst hn
      simp [deliveryGo, hf, ht, show ¬(i < m - 1) by omega]
    · simp only [deliveryGo, hf, ht, if_pos (show i < m - 1 by omega)]
      have : n - 1 + 1 = n + 1 - 1 := by omega
      rw [this]

/-- C3 counterexample: with max attempts 3 and every attempt failing with a
non-success status code, the code makes 3 attempts but sleeps 0 times (the
sleep sits only in the transport-exception branch), against the claim of
exactly 2 sleeps for any failure mode. -/
theorem retry_sleep_count_cex :
    deliveryRun (fun _ => .badStatus) 3 = (3, 0)
    ∧ deliveryRun (fun _ => .badStatus) 3 ≠ (3, 2) := by
  refine ⟨rfl, by decide⟩

/-- C3 amended: at most `max` attempts are made; `max = 0` means zero
attempts; the delay sleep runs only after a transport failure (exception) with
attempts remaining, so all-transport-failure runs make `max` attempts and
`max - 1` sleeps while all-bad-status runs make `max` attempts and 0 sleeps;
an accepted first attempt stops immediately after 1 attempt. -/
theorem delivery_retry_behaviour (f : Nat → AttemptOutcome) (m : Nat) :
    (deliveryRun f m).1 ≤ m
    ∧ (m = 0 → deliveryRun f m = (0, 0))
    ∧ ((∀ i, i < m → f i = .transportError) → deliveryRun f m = (m, m - 1))
    ∧ ((∀ i, i < m → f i = .badStatus) → deliveryRun f m = (m, 0))
    ∧ (0 < m → f 0 = .accepted → deliveryRun f m = (1, 0)) := by
  refine ⟨deliveryGo_attempts_le f m m 0, ?_, ?_, ?_, ?_⟩
  · intro hm; subst hm; rfl
  · intro h
    exact deliveryGo_all_transport f m h m 0 (by omega)
  · intro h
    exact deliveryGo_all_bad f m h m 0 (by omega)
  · intro hm hacc
    obtain ⟨n, rfl⟩ : ∃ n, m = n + 1 := ⟨m - 1, by omega⟩
    simp [deliveryRun, deliveryGo, hacc]

/-- Witness for C3's amended statement: three transport failures give exactly
3 attempts and 2 sleeps. -/
theorem delivery_retry_behaviour_witness :
    deliveryRun (fun _ => .transportError) 3 = (3, 2) :=
  (delivery_retry_behaviour (fun _ => .transportError) 3).2.2.1 (fun _ _ => rfl)

/-- C4 counterexample: on a stored snapshot whose `total` key holds an int,
the path `/total/x` traverses into a non-container; Python's `'x' not in 6`
raises TypeError, the generic handler answers 500 — not the 404 the claim
says, while an absent key (`/missing`) does answer 404, so the two cases are
not handled identically. -/
theorem projection_noncontainer_cex :
    doGet servedSnapshot "/total/x" = .r500
    ∧ doGet servedSnapshot "/missing" = .r404
    ∧ HttpRes.r500 ≠ HttpRes.r404 :=
  ⟨rfl, rfl, fun h => nomatch h⟩

/-- C4 amended: a non-empty segment looked up in a dict answers 404 when the
key is absent; the same segment traversing into an int, bool or None raises in
the membership test and answers 500; traversing into a string or list answers
404 when Python's `in` reports absence and 500 when the membership test
succeeds but string indexing then raises.  Every case yields a response — the
handler never propagates an exception. -/
theorem projection_traversal_responses (l : List (String × JVal)) (key : String)
    (rest : List String) (n : Int) (b : Bool) (s : String) (xs : List JVal)
    (hkey : key ≠ "") :
    (jobjHasKey l key = false → doGetWalk (.jobj l) (key :: rest) = .r404)
    ∧ doGetWalk (.jnum n) (key :: rest) = .r500
    ∧ doGetWalk (.jbool b) (key :: rest) = .r500
    ∧ doGetWalk .jnull (key :: rest) = .r500
    ∧ doGetWalk (.jstr s) (key :: rest) = (if strHas s key then .r500 else .r404)
    ∧ doGetWalk (.jarr xs) (key :: rest)
        = (if xs.any (fun v => match v with | .jstr t => t == key | _ => false)
           then .r500 else .r404) := by
  refine ⟨?_, ?_, ?_, ?_, ?_, ?_⟩
  · intro h
    simp [doGetWalk, hkey, pyIn, h]
  · simp [doGetWalk, hkey, pyIn]
  · simp [doGetWalk, hkey, pyIn]
  · simp [doGetWalk, hkey, pyIn]
  · cases hs : strHas s key with
    | true => simp [doGetWalk, if_neg hkey, pyIn, pyGetKey, hs]
    | false => simp [doGetWalk, if_neg hkey, pyIn, hs]
  · cases ha : xs.any (fun v => match v with | .jstr t => t == key | _ => false) with
    | true => simp [doGetWalk, if_neg hkey, pyIn, pyGetKey, ha]
    | false => simp [doGetWalk, if_neg hkey, pyIn, ha]

/-- Witness for C4's amended statement: traversing into the int at `total`
with the non-empty segment "x" answers 500. -/
theorem projection_traversal_responses_witness :
    doGetWalk (.jnum 6) ["x"] = .r500 :=
  (projection_traversal_responses [] "x" [] 6 false "" [] (by decide)).2.1

lemma filterMap_ite {α β : Type} (p : α → Bool) (g : α → β) (f : α → Option β)
    (hf : ∀ a, f a = if p a then some (g a) else none) :
    ∀ l : List α, l.filterMap f = (l.filter p).map g := by
  intro l
  induction l with
  | nil => rfl
  | cons a t ih =>
    rw [List.filterMap_cons, List.filter_cons, hf a]
    by_cases hp : p a
    · simp [hp, ih]
    · simp [hp, ih]

lemma verboseEmits_eq_filter (old : Option RootSnapshot) (d : RootSnapshot) :
    verboseEmits old d = (d.vdevs.filter (poolChanged old)).map (fun q => (q.1, poolView q.2)) := by
  unfold verboseEmits
  apply filterMap_ite
  intro q
  unfold poolChanged
  cases lookupA (storeVdevs old) q.1 with
  | none => simp
  | some p =>
    by_cases hp : p = q.2
    · simp [hp]
    · simp [hp]

/-- C5 counterexample: the stored snapshot has pools "a" and "b"; the new one
lost pool "b" and kept "a" unchanged, so the snapshots differ (root counters
and pool sets disagree) yet the verbose branch renders zero messages — against
the claim that a difference guarantees at least one. -/
theorem verbose_no_message_cex :
    snapEqStore (some twoPoolSnap) onePoolSnap = false
    ∧ checkStatusEmits true (some twoPoolSnap) onePoolSnap = [] := by
  refine ⟨by decide, by decide⟩

/-- C5 amended: in verbose mode, when the snapshots compare unequal, the
rendered messages are exactly one per pool of the new snapshot that is absent
from the old one or present but unequal (in iteration order), and none for
unchanged pools; zero messages result exactly when no pool of the new snapshot
changed (possible when the difference lies in removed pools or the root
counters alone). -/
theorem verbose_per_pool_messages (old : Option RootSnapshot) (d : RootSnapshot)
    (h : snapEqStore old d = false) :
    checkStatusEmits true old d
      = (d.vdevs.filter (poolChanged old)).map (fun q => (q.1, poolView q.2))
    ∧ (checkStatusEmits true old d = [] ↔ ∀ q ∈ d.vdevs, poolChanged old q = false) := by
  have he : checkStatusEmits true old d = verboseEmits old d := by
    simp [checkStatusEmits, h]
  rw [he, verboseEmits_eq_filter]
  refine ⟨rfl, ?_⟩
  rw [List.map_eq_nil_iff, List.filter_eq_nil_iff]
  constructor
  · intro hx q hq
    simpa using hx q hq
  · intro hx q hq
    simpa using hx q hq

/-- Witness for C5's amended statement: from the initial empty store, both
pools of the two-pool snapshot count as changed and each gets its message. -/
theorem verbose_per_pool_messages_witness :
    checkStatusEmits true none twoPoolSnap
      = [("a", poolView poolNodeA), ("b", poolView poolNodeB)] := by
  rw [(verbose_per_pool_messages none twoPoolSnap (by decide)).1]
  decide

/-- C6 counterexample: on the §8 fixture tree the classifier's pool counter
shows `total = 4`, not the claimed 6: the drive loop tallies the spare
wrapper itself as one unit (with its own state) and never tallies the devices
nested inside the spare/replacing wrappers into any counter. -/
theorem fixture_pool_total_cex :
    (lookupA (classify false fixtureStatus).vdevs "tank").map (fun p => p.counter.total)
      = some 4
    ∧ (some (4 : Int) ≠ some 6) := by
  refine ⟨rfl, by decide⟩

/-- C6 amended: on the §8 fixture tree the pool counter is
`total = 4, online = 1, degraded = 2` (three group members plus the spare
wrapper counted as one unit; nested devices appear only in the drive lists),
the `degraded_drives` list contains the nested replacing identifier with the
" (replacing)" suffix, and the `logs`/`cache`/`spares` children carry
independent counters with totals 2, 1 and 1. -/
theorem fixture_classification :
    (lookupA (classify false fixtureStatus).vdevs "tank").map (fun p => p.counter)
      = some { total := 4, online := 1, degraded := 2 }
    ∧ (lookupA (classify false fixtureStatus).vdevs "tank").map (fun p => p.degraded_drives)
      = some ["sdb1", "sdd1 (replacing)"]
    ∧ ((lookupA (classify false fixtureStatus).vdevs "tank").map
        (fun p => lookupA p.vdevs "logs")
      = some (some { total := 2, online := 2, degraded := 0 }))
    ∧ ((lookupA (classify false fixtureStatus).vdevs "tank").map
        (fun p => lookupA p.vdevs "cache")
      = some (some { total := 1, online := 1, degraded := 0 }))
    ∧ ((lookupA (classify false fixtureStatus).vdevs "tank").map
        (fun p => lookupA p.vdevs "spares")
      = some (some { total := 1, online := 1, degraded := 0 })) := by
  refine ⟨rfl, rfl, rfl, rfl, rfl⟩

lemma createCount_inv : CounterInv createCount := by
  refine ⟨le_refl 0, le_refl 0, le_refl 0, le_refl 0⟩

lemma countByState_inv (c : Counter) (s : String) (h : CounterInv c) :
    CounterInv (countByState c s) := by
  obtain ⟨h1, h2, h3, h4⟩ := h
  by_cases hp : (s = "ONLINE" ∨ s = "AVAIL")
  · refine ⟨?_, ?_, ?_, ?_⟩ <;> simp [CounterInv, countByState, hp] <;> omega
  · by_cases hq : (s = "DEGRADED" ∨ s = "INUSE")
    · refine ⟨?_, ?_, ?_, ?_⟩ <;> simp [CounterInv, countByState, hp, hq] <;> omega
    · refine ⟨?_, ?_, ?_, ?_⟩ <;> simp [CounterInv, countByState, hp, hq] <;> omega

lemma countListStates_inv :
    ∀ (l : List (String × Dev)) (c : Counter), CounterInv c →
      CounterInv (countListStates c l) := by
  intro l
  induction l with
  | nil => intro c h; exact h
  | cons p rest ih =>
    intro c h
    exact ih (countByState c p.2.state) (countByState_inv c p.2.state h)

lemma countLogs_inv :
    ∀ (l : List (String × Dev)) (c : Counter), CounterInv c →
      CounterInv (countLogs c l) := by
  intro l
  induction l with
  | nil => intro c h; exact h
  | cons p rest ih =>
    intro c h
    show CounterInv (countLogs (if p.2.vtype ≠ "disk" then countListStates c p.2.children
                                else countByState c p.2.state) rest)
    by_cases hv : p.2.vtype ≠ "disk"
    · rw [if_pos hv]
      exact ih _ (countListStates_inv p.2.children c h)
    · rw [if_neg hv]
      exact ih _ (countByState_inv c p.2.state h)

lemma processDrives_inv :
    ∀ (l : List (String × Dev)) (pc gc : Counter) (dd od : List String),
      CounterInv pc → CounterInv gc →
      CounterInv (processDrives pc gc dd od l).1
      ∧ CounterInv (processDrives pc gc dd od l).2.1 := by
  intro l
  induction l with
  | nil => intro pc gc dd od hp hg; exact ⟨hp, hg⟩
  | cons p rest ih =>
    intro pc gc dd od hp hg
    exact ih _ _ _ _ (countByState_inv pc p.2.state hp) (countByState_inv gc p.2.state hg)

lemma processGroups_inv :
    ∀ (l : List (String × Dev)) (pc : Counter) (dd od : List String)
      (acc : List (String × Counter)),
      CounterInv pc → (∀ q ∈ acc, CounterInv q.2) →
      CounterInv (processGroups pc dd od acc l).1
      ∧ ∀ q ∈ (processGroups pc dd od acc l).2.2.2, CounterInv q.2 := by
  intro l
  induction l with
  | nil => intro pc dd od acc hp hacc; exact ⟨hp, hacc⟩
  | cons g rest ih =>
    intro pc dd od acc hp hacc
    have hd := processDrives_inv g.2.children pc createCount dd od hp createCount_inv
    apply ih _ _ _ _ hd.1
    intro q hq
    rcases List.mem_append.mp hq with hql | hqr
    · exact hacc q hql
    · rw [List.mem_singleton.mp hqr]
      exact hd.2

lemma optChild_inv {P : Counter → Prop} {gs : List (String × Counter)} {o : Option Counter}
    (name : String) (hgs : ∀ q ∈ gs, P q.2) (ho : ∀ c, o = some c → P c) :
    ∀ q ∈ optChild name gs o, P q.2 := by
  intro q hq
  cases o with
  | none => exact hgs q hq
  | some c =>
    rcases List.mem_append.mp hq with h | h
    · exact hgs q h
    · rw [List.mem_singleton.mp h]
      exact ho c rfl

lemma optMap_inv {α : Type} {P : Counter → Prop} (o : Option α) (f : α → Counter)
    (h : ∀ a, P (f a)) : ∀ c, o.map f = some c → P c := by
  intro c hc
  cases o with
  | none => cases hc
  | some a =>
    have hfa : f a = c := by simpa using hc
    exact hfa ▸ h a

lemma processPool_inv (showSpace : Bool) (p : PoolIn) :
    CounterInv (processPool showSpace p).counter
    ∧ ∀ q ∈ (processPool showSpace p).vdevs, CounterInv q.2 := by
  have hg := processGroups_inv p.groups createCount [] [] [] createCount_inv
    (by intro q hq; exact absurd hq (List.not_mem_nil q))
  refine ⟨hg.1, ?_⟩
  apply optChild_inv _ (optChild_inv _ (optChild_inv _ hg.2 ?_) ?_) ?_
  · exact optMap_inv _ _ (fun l => countLogs_inv l createCount createCount_inv)
  · exact optMap_inv _ _ (fun l => countListStates_inv l createCount createCount_inv)
  · exact optMap_inv _ _ (fun l => countListStates_inv l createCount createCount_inv)

lemma classifyPools_inv (showSpace : Bool) :
    ∀ (l : List (String × PoolIn)) (rc : Counter) (acc : List (String × PoolNode)),
      CounterInv rc →
      (∀ q ∈ acc, CounterInv q.2.counter ∧ ∀ g ∈ q.2.vdevs, CounterInv g.2) →
      CounterInv (classifyPools showSpace rc acc l).1
      ∧ ∀ q ∈ (classifyPools showSpace rc acc l).2,
          CounterInv q.2.counter ∧ ∀ g ∈ q.2.vdevs, CounterInv g.2 := by
  intro l
  induction l with
  | nil => intro rc acc h hacc; exact ⟨h, hacc⟩
  | cons p rest ih =>
    intro rc acc h hacc
    apply ih _ _ (countByState_inv rc p.2.state h)
    intro q hq
    rcases List.mem_append.mp hq with hql | hqr
    · exact hacc q hql
    · rw [List.mem_singleton.mp hqr]
      exact processPool_inv showSpace p.2

/-- C8: every HealthCounter the classifier constructs — the root counter and
the counters of every pool and of every group/auxiliary node — has all three
fields non-negative and satisfies `online + degraded ≤ total`, because each
tallied device increments `total` by one and at most one of
`online`/`degraded`. -/
theorem classifier_counter_invariant (showSpace : Bool) (st : StatusIn) :
    CounterInv (classify showSpace st).counter
    ∧ ∀ q ∈ (classify showSpace st).vdevs,
        CounterInv q.2.counter ∧ ∀ g ∈ q.2.vdevs, CounterInv g.2 :=
  classifyPools_inv showSpace st.pools createCount [] createCount_inv
    (by intro q hq; exact absurd hq (List.not_mem_nil q))

/-- Witness for C8: the invariant holds for the root counter of the fixture
classification. -/
theorem classifier_counter_invariant_witness :
    CounterInv (classify false fixtureStatus).counter :=
  (classifier_counter_invariant false fixtureStatus).1

lemma keyInsert_length (p : String × JVal) : ∀ l, (keyInsert p l).length = l.length + 1 := by
  intro l
  induction l with
  | nil => rfl
  | cons q qs ih =>
    by_cases h : p.1 ≤ q.1
    · simp [keyInsert, h]
    · simp [keyInsert, h, ih]

lemma keySort_length : ∀ l, (keySort l).length = l.length := by
  intro l
  induction l with
  | nil => rfl
  | cons p ps ih => simp [keySort, keyInsert_length, ih]

lemma normPairs_length : ∀ l, (normPairs l).length = l.length := by
  intro l
  induction l with
  | nil => rfl
  | cons p ps ih =>
    cases p
    simp [normPairs, ih]

lemma beqPairsJ_true_length : ∀ a b, beqPairsJ a b = true → a.length = b.length := by
  intro a
  induction a with
  | nil =>
    intro b h
    cases b with
    | nil => rfl
    | cons q qs => simp [beqPairsJ] at h
  | cons p ps ih =>
    intro b h
    cases b with
    | nil => cases p; simp [beqPairsJ] at h
    | cons q qs =>
      cases p
      cases q
      simp only [beqPairsJ, Bool.and_eq_true] at h
      simp [ih qs h.2]

/-- The classifier's output dict always carries the key `total` (and three
more), while the initial `old_data` has the single key `vdevs`, so under
Python dict equality the two can never be equal. -/
lemma initial_ne_classifier_output (r : RootSnapshot) :
    pyEqJ initialOldData (toJVal r) = false := by
  cases h : pyEqJ initialOldData (toJVal r) with
  | false => rfl
  | true =>
    exfalso
    unfold pyEqJ at h
    have h1 : normJ initialOldData = .jobj [("vdevs", .jobj [])] := by
      simp [initialOldData, normJ, normPairs, normList, keySort, keyInsert]
    have h2 : normJ (toJVal r)
        = .jobj (keySort (normPairs (counterPairs r.counter
            ++ [("vdevs", .jobj (r.vdevs.map (fun q => (q.1, poolNodeToJ q.2))))]))) := by
      simp [toJVal, normJ]
    rw [h1, h2] at h
    have h3 := beqPairsJ_true_length _ _ (by simpa [beqJ] using h)
    rw [keySort_length, normPairs_length] at h3
    simp [counterPairs] at h3

/-- C10: on the first poll cycle the stored `old_data = {"vdevs": {}}` is
unequal (as Python dicts) to every possible classifier output, because every
classifier output carries the key `total`; so the notifier always judges the
snapshot changed, reaches the delivery code, and in non-verbose mode renders
exactly one message — the whole-snapshot embed. -/
theorem first_cycle_always_notifies (showSpace : Bool) (st : StatusIn) :
    pyEqJ initialOldData (toJVal (classify showSpace st)) = false
    ∧ checkStatusPosts none (classify showSpace st) = true
    ∧ checkStatusEmits false none (classify showSpace st)
        = [("", rootView (classify showSpace st))] := by
  refine ⟨initial_ne_classifier_output _, rfl, ?_⟩
  simp [checkStatusEmits, snapEqStore]
